import Mathlib

/-!
Verification development for the CalHacks-Agents meal/grocery backend.

The Python source is shallowly embedded: Python floats are modelled exactly as
rationals (`ℚ`), Python `None`-able values as `Option`, and Python `round`
(round half to even) as an exact rounding function on `ℚ`.  External services
(the Kroger product catalog, the password-hash primitive) are parameters of the
embedded functions, as the source only consumes them over the network.
-/

/-- Python `round` to an integer: round half to even, modelled exactly on `ℚ`. -/
def roundHalfEven (q : ℚ) : ℤ :=
  if q - ⌊q⌋ < 1/2 then ⌊q⌋
  else if 1/2 < q - ⌊q⌋ then ⌊q⌋ + 1
  else if ⌊q⌋ % 2 = 0 then ⌊q⌋ else ⌊q⌋ + 1

/-- Python `round(x, d)` for `d` decimal digits, modelled exactly on `ℚ`. -/
def pyRound (q : ℚ) (d : ℕ) : ℚ :=
  (roundHalfEven (q * 10 ^ d) : ℚ) / 10 ^ d

/-- Truthiness of a Python `Optional[str]`: `None` and `""` are falsy. -/
def pyTruthyStr : Option String → Bool
  | none => false
  | some s => !s.isEmpty

/-- Truthiness of a Python `Optional[float]`: `None` and `0.0` are falsy. -/
def pyTruthyQ : Option ℚ → Bool
  | none => false
  | some x => decide (x ≠ 0)

/-- Helper for the Python substring operator: does `sub` occur as a
contiguous subsequence of `l`? -/
def listContainsSeq (sub : List Char) : List Char → Bool
  | [] => sub.isEmpty
  | c :: t => sub.isPrefixOf (c :: t) || listContainsSeq sub t

/-- Python `sub in s` on strings (substring containment). -/
def strContains (s sub : String) : Bool :=
  listContainsSeq sub.toList s.toList

/-- Python `s.lower()`, modelled character by character. -/
def pyLower (s : String) : String :=
  String.mk (s.data.map Char.toLower)

/-! ## Chat agent (`src/agents/chat_agent/agent.py`) -/

/-- The slice of the user profile read by `extract_preferences`
(`user_profile.get("diet")`, `.get("likes")`, `.get("dislikes")`). -/
structure ChatProfile where
  diet : String
  likes : List String
  dislikes : List String
deriving DecidableEq, Repr

/-- The `preferences` dict built by `extract_preferences`. -/
structure ChatPreferences where
  meal_type : Option String
  cook_time : Option String
  cuisine : Option String
  dietary_restrictions : String
  likes : List String
  dislikes : List String
deriving DecidableEq, Repr

/-- Meal-type keyword matching of `extract_preferences` (agent.py lines 96-103);
`ml` is the lower-cased message. -/
def extractMealType (ml : String) : Option String :=
  if strContains ml "breakfast" || strContains ml "morning" then some "breakfast"
  else if strContains ml "lunch" || strContains ml "noon" then some "lunch"
  else if strContains ml "dinner" || strContains ml "evening" then some "dinner"
  else if strContains ml "snack" then some "snack"
  else none

/-- Cook-time keyword matching of `extract_preferences` (agent.py lines 106-111). -/
def extractCookTime (ml : String) : Option String :=
  if strContains ml "quick" || strContains ml "fast" || strContains ml "15" ||
      strContains ml "20" then some "15-30 mins"
  else if strContains ml "30" || strContains ml "45" then some "30-45 mins"
  else if strContains ml "hour" || strContains ml "60" then some "45-60 mins"
  else none

/-- Cuisine matching of `extract_preferences` (agent.py lines 114-118):
first match in the fixed list wins. -/
def extractCuisine (ml : String) : Option String :=
  ["indian", "italian", "chinese", "mexican", "thai", "japanese"].find?
    (fun c => strContains ml c)

/-- `extract_preferences(message, user_profile)` from the chat agent. -/
def extract_preferences (message : String) (user_profile : ChatProfile) :
    ChatPreferences :=
  { meal_type := extractMealType (pyLower message)
    cook_time := extractCookTime (pyLower message)
    cuisine := extractCuisine (pyLower message)
    dietary_restrictions := user_profile.diet
    likes := user_profile.likes
    dislikes := user_profile.dislikes }

/-- The fixed clarifying question for a missing meal type. -/
def mealTypeQuestion : String :=
  "What meal are you planning? (breakfast, lunch, dinner, or snack)"

/-- The fixed clarifying question for a missing cook time. -/
def cookTimeQuestion : String :=
  "How much time do you have to cook? (e.g., 15-30 mins, 30-45 mins)"

/-- `is_request_complete(preferences)` from the chat agent (lines 123-134). -/
def is_request_complete (p : ChatPreferences) : Bool × Option String :=
  if !pyTruthyStr p.meal_type then (false, some mealTypeQuestion)
  else if !pyTruthyStr p.cook_time then (false, some cookTimeQuestion)
  else (true, none)

/-! ## Recipe agent macro computation (`src/agents/recipe_agent/agent.py`) -/

/-- The `target_macros` dict of the recipe agent. -/
structure TargetMacros where
  protein_g : ℚ
  carbs_g : ℚ
  fat_g : ℚ
  calories : ℚ
deriving DecidableEq, Repr

/-- Default macros used when the profile has no `target_macros` key. -/
def defaultTargetMacros : TargetMacros :=
  { protein_g := 140, carbs_g := 200, fat_g := 50, calories := 1800 }

/-- The `meal_distribution` lookup with default `0.33` (agent.py lines 106-113). -/
def mealDistribution (meal_type : String) : ℚ :=
  if meal_type = "breakfast" then 1/4
  else if meal_type = "lunch" then 7/20
  else if meal_type = "dinner" then 3/10
  else if meal_type = "snack" then 1/10
  else 33/100

/-- `calculate_target_macros(user_profile, meal_type)` (agent.py lines 93-120);
the profile argument is reduced to its optional `target_macros` entry. -/
def calculate_target_macros (target_macros : Option TargetMacros)
    (meal_type : String) : TargetMacros :=
  { protein_g :=
      pyRound ((target_macros.getD defaultTargetMacros).protein_g *
        mealDistribution meal_type) 1
    carbs_g :=
      pyRound ((target_macros.getD defaultTargetMacros).carbs_g *
        mealDistribution meal_type) 1
    fat_g :=
      pyRound ((target_macros.getD defaultTargetMacros).fat_g *
        mealDistribution meal_type) 1
    calories :=
      pyRound ((target_macros.getD defaultTargetMacros).calories *
        mealDistribution meal_type) 0 }

/-- The sum `pyRound (k*(1/4)) 0 + pyRound (k*(7/20)) 0 + pyRound (k*(3/10)) 0
+ pyRound (k*(1/10)) 0` of the four per-meal calorie allocations. -/
def calSum (k : ℚ) : ℚ :=
  pyRound (k * (1/4)) 0 + pyRound (k * (7/20)) 0 + pyRound (k * (3/10)) 0 +
    pyRound (k * (1/10)) 0

/-! ## Daily-meal macro validation (`src/agents/recipe_agent/daily_meals.py`) -/

/-- One per-macro entry of the dict built by `validate_macro_targets`:
`met` and `percentage` are `None` for an undeclared (or zero) target. -/
structure MacroCheckEntry where
  target : Option ℚ
  actual : ℚ
  met : Option Bool
  percentage : Option ℤ
deriving DecidableEq, Repr

/-- One branch of `validate_macro_targets` (daily_meals.py lines 311-330):
`if target:` is Python truthiness, so `None` and `0.0` take the else branch.
When the target is truthy it is some nonzero `t` and `getD 0` returns `t`. -/
def checkMacroEntry (actual : ℚ) (target : Option ℚ) : MacroCheckEntry :=
  if pyTruthyQ target then
    let t := target.getD 0
    { target := target, actual := actual
      met := some (decide (|actual - t| / t ≤ 1/10))
      percentage := some (roundHalfEven (actual / t * 100)) }
  else
    { target := target, actual := actual, met := none, percentage := none }

/-- `validate_macro_targets(actual_protein, actual_carbs, actual_fat,
target_protein, target_carbs, target_fat)` (daily_meals.py lines 300-332). -/
def validate_macro_targets (ap ac af : ℚ) (tp tc tf : Option ℚ) :
    MacroCheckEntry × MacroCheckEntry × MacroCheckEntry :=
  (checkMacroEntry ap tp, checkMacroEntry ac tc, checkMacroEntry af tf)

/-- The `has_macro_targets = any([...])` gate of
`generate_daily_meals_with_claude` (daily_meals.py lines 55-59):
Python `any` of optional floats, so zero targets count as absent. -/
def has_macro_targets (tp tc tf : Option ℚ) : Bool :=
  pyTruthyQ tp || pyTruthyQ tc || pyTruthyQ tf

/-- The `macro_validation` field of the daily response (daily_meals.py
lines 257-263): validation runs only when the gate is true. -/
def dailyMacroValidation (ap ac af : ℚ) (tp tc tf : Option ℚ) :
    Option (MacroCheckEntry × MacroCheckEntry × MacroCheckEntry) :=
  if has_macro_targets tp tc tf then
    some (validate_macro_targets ap ac af tp tc tf)
  else
    none

/-! ## Grocery agent: categorization and product scoring
(`src/agents/grocery_agent/agent.py`) -/

/-- The `CATEGORY_MAP` dict, in insertion order (agent.py lines 119-143). -/
def CATEGORY_MAP : List (String × String) :=
  [("paneer", "Dairy"), ("cottage cheese", "Dairy"), ("yogurt", "Dairy"),
   ("quinoa", "Grains"), ("brown rice", "Grains"),
   ("whole wheat flour", "Grains"),
   ("bell peppers", "Produce"), ("onions", "Produce"),
   ("sweet potato", "Produce"), ("spinach", "Produce"),
   ("tomatoes", "Produce"), ("green chilies", "Produce"),
   ("chickpeas", "Canned Goods"),
   ("toor dal", "Grains & Beans"), ("split pigeon peas", "Grains & Beans"),
   ("tahini", "Condiments"), ("ginger-garlic paste", "Condiments"),
   ("garam masala", "Spices"), ("turmeric", "Spices"), ("cumin", "Spices"),
   ("cumin seeds", "Spices"), ("chili powder", "Spices"),
   ("ghee", "Cooking Oils")]

/-- `categorize_ingredient(ingredient_name)` (agent.py lines 146-159):
exact dict lookup, then first partial (substring) match, else "Other". -/
def categorize_ingredient (ingredient_name : String) : String :=
  let il := pyLower ingredient_name
  match CATEGORY_MAP.find? (fun kv => kv.1 == il) with
  | some kv => kv.2
  | none =>
    match CATEGORY_MAP.find? (fun kv => strContains il kv.1) with
    | some kv => kv.2
    | none => "Other"

/-- A product record from the Kroger catalog search response, reduced to the
fields `_find_best_product_match` reads: `description`, `brand`, and the
`price` entry of each element of `items` (`none` when the entry has no price
information). -/
structure KrogerProduct where
  description : String
  brand : String
  itemPrices : List (Option ℚ)
deriving DecidableEq, Repr

/-- The `items and items[0].get("price")` check of the scorer (agent.py
lines 397-400). -/
def productHasPrice (p : KrogerProduct) : Bool :=
  match p.itemPrices with
  | [] => false
  | pr :: _ => pr.isSome

/-- Fuelled whitespace splitter; every step consumes at least one
character, so fuel equal to the character count splits everything. -/
def splitWSAux : ℕ → List Char → List (List Char)
  | 0, _ => []
  | _ + 1, [] => []
  | fuel + 1, c :: t =>
    if c.isWhitespace then splitWSAux fuel t
    else
      (c :: t.takeWhile (fun d => !d.isWhitespace)) ::
        splitWSAux fuel (t.dropWhile (fun d => !d.isWhitespace))

/-- Python `s.split()`: split on whitespace runs, dropping empty pieces. -/
def pyWords (s : String) : List String :=
  (splitWSAux s.data.length s.data).map String.mk

/-- `len(set(a.split()) & set(b.split()))`: the number of distinct
whitespace-tokenized words shared by `a` and `b`. -/
def commonWordCount (a b : String) : ℕ :=
  ((pyWords a).dedup.filter (fun w => w ∈ pyWords b)).length

/-- The per-candidate score of `_find_best_product_match`
(agent.py lines 391-417). -/
def scoreProduct (ingredient_name : String) (p : KrogerProduct) : ℕ :=
  (if productHasPrice p then 10 else 0)
  + (if strContains (pyLower p.description) (pyLower ingredient_name)
      then 5 else 0)
  + (if strContains (pyLower ingredient_name) (pyLower p.description)
      then 3 else 0)
  + 2 * commonWordCount (pyLower ingredient_name) (pyLower p.description)
  + (if strContains (pyLower p.brand) "kroger" ||
        strContains (pyLower p.brand) "private selection" then 1 else 0)

/-- Head of a stable descending sort of scored candidates: the first pair
achieving the maximal score (Python `list.sort(key=..., reverse=True)` is
stable, so `scored_products[0]` is the earliest maximum). -/
def stableMaxHead : List (ℕ × KrogerProduct) → Option (ℕ × KrogerProduct)
  | [] => none
  | x :: xs =>
    match stableMaxHead xs with
    | none => some x
    | some y => if x.1 < y.1 then some y else some x

/-- `_find_best_product_match(products, ingredient_name)` (agent.py
lines 383-427): score every candidate, keep the strictly positive ones in
order, and return the highest-scoring one (ties to the earliest). -/
def find_best_product_match (products : List KrogerProduct)
    (ingredient_name : String) : Option KrogerProduct :=
  (stableMaxHead (products.filterMap (fun p =>
    if 0 < scoreProduct ingredient_name p then
      some (scoreProduct ingredient_name p, p)
    else none))).map (fun sp => sp.2)

/-! ## Grocery agent: list building (`src/agents/grocery_agent/agent.py`)
and the from-recipe route (`src/main.py` lines 1056-1145).

The network-facing `search_kroger_product` is abstracted as a `catalog`
oracle returning the already-extracted best-match data
(`_extract_product_data`'s dict) for an ingredient name, or `none` when no
strategy produced a match. -/

/-- The dict built by `_extract_product_data` (agent.py lines 430-449),
reduced to the fields the list builders read. -/
structure CatalogProduct where
  name : String
  price : Option ℚ
  product_id : Option String
  upc : Option String
  brand : Option String
deriving DecidableEq, Repr

/-- The catalog oracle standing for `search_kroger_product`. -/
def Catalog : Type := String → Option CatalogProduct

/-- The dict returned by `search_and_price_ingredient(ingredient_name,
quantity, unit)` (agent.py lines 452-495).  The `found` branch requires a
match whose `price` is truthy (so a `0.0` price counts as not found). -/
structure ItemDetails where
  name : String
  quantity : ℚ
  unit : String
  price : Option ℚ
  product_id : Option String
  upc : Option String
  brand : Option String
  category : String
  source : String
  found : Bool
deriving DecidableEq, Repr

/-- `search_and_price_ingredient` (agent.py lines 452-495). -/
def search_and_price_ingredient (catalog : Catalog) (ingredient_name : String)
    (quantity : ℚ) (unit : String) : ItemDetails :=
  match catalog ingredient_name with
  | some kp =>
    if pyTruthyQ kp.price then
      { name := kp.name, quantity := quantity, unit := unit
        price := kp.price, product_id := kp.product_id, upc := kp.upc
        brand := kp.brand, category := categorize_ingredient ingredient_name
        source := "kroger_api", found := true }
    else
      { name := ingredient_name, quantity := quantity, unit := unit
        price := none, product_id := none, upc := none, brand := none
        category := categorize_ingredient ingredient_name
        source := "not_found", found := false }
  | none =>
    { name := ingredient_name, quantity := quantity, unit := unit
      price := none, product_id := none, upc := none, brand := none
      category := categorize_ingredient ingredient_name
      source := "not_found", found := false }

/-- An entry of `recipe["ingredients"]` as `create_grocery_list` receives it:
either the structured `{name, quantity, unit, notes}` shape (the typed
`Ingredient` object is handled identically) or the legacy shape whose
quantity is a free-text string such as "200g". -/
inductive PyIngredient where
  | structured (name : String) (quantity : ℚ) (unit : String) (notes : String)
  | legacy (name : String) (quantity_str : String)
deriving DecidableEq, Repr

/-- Python `float()` on a string drawn from the character class `[\d.]+`:
defined when the string has at least one digit and at most one dot. -/
def pyFloatOfDigitsDots (l : List Char) : Option ℚ :=
  if l.count '.' ≤ 1 && l.any (fun c => c.isDigit) then
    let intPart := l.takeWhile (fun c => c ≠ '.')
    let fracPart := (l.dropWhile (fun c => c ≠ '.')).drop 1
    let digitsVal : List Char → ℕ := fun ds =>
      ds.foldl (fun acc c => 10 * acc + (c.toNat - 48)) 0
    some ((digitsVal intPart : ℚ) +
      (digitsVal fracPart : ℚ) / (10 : ℚ) ^ fracPart.length)
  else
    none

/-- The quantity/unit normalization of `create_grocery_list` (agent.py lines
524-552): the legacy string is matched against `([\d.]+)\s*([a-zA-Z]*)`;
no match defaults to quantity 1.0 and unit "unit"; a matched numeric group
that `float()` rejects raises, which `none` models. -/
def normalizeIngredient : PyIngredient → Option (String × ℚ × String × String)
  | .structured name quantity unit notes => some (name, quantity, unit, notes)
  | .legacy name quantity_str =>
    let ds := quantity_str.data.takeWhile (fun c => c.isDigit || c = '.')
    if ds.isEmpty then some (name, 1, "unit", "")
    else
      match pyFloatOfDigitsDots ds with
      | some q =>
        let rest := (quantity_str.data.drop ds.length).dropWhile
          (fun c => c.isWhitespace)
        let us := rest.takeWhile (fun c => c.isAlpha)
        some (name, q, if us.isEmpty then "unit" else String.mk us, "")
      | none => none

/-- A `GroceryItem` produced by `create_grocery_list`.  The source renders
quantity, unit and notes into a display string `"{quantity} {unit} ({notes})"`;
the three components are kept separate here. -/
structure GroceryItem where
  name : String
  quantity : ℚ
  unit : String
  notes : String
  category : String
  estimated_price : Option ℚ
  product_id : Option String
  upc : Option String
  brand : Option String
deriving DecidableEq, Repr

/-- The ingredient loop of `create_grocery_list` (agent.py lines 524-588),
returning the accumulated `(grocery_items, total_cost, kroger_items_found)`;
`none` models the loop raising (legacy quantity whose numeric group is not a
valid float). -/
def groceryLoop (catalog : Catalog) :
    List PyIngredient → Option (List GroceryItem × ℚ × ℕ)
  | [] => some ([], 0, 0)
  | ing :: rest =>
    match normalizeIngredient ing with
    | none => none
    | some (item_name, quantity, unit, notes) =>
      let d := search_and_price_ingredient catalog item_name quantity unit
      match groceryLoop catalog rest with
      | none => none
      | some (items, total, found) =>
        if d.found && d.source == "kroger_api" then
          let item : GroceryItem :=
            { name := d.name, quantity := quantity, unit := unit
              notes := notes, category := d.category
              estimated_price := d.price
              product_id := d.product_id, upc := d.upc, brand := d.brand }
          some (item :: items,
            (match d.price with | some pr => pr | none => 0) + total,
            found + 1)
        else
          some (items, total, found)

/-- The result dict of `create_grocery_list` (agent.py lines 597-603). -/
structure GroceryListResult where
  store : String
  items : List GroceryItem
  total_estimated_cost : ℚ
  kroger_items_found : ℕ
  total_items : ℕ
deriving DecidableEq, Repr

/-- `create_grocery_list(recipe, store)` (agent.py lines 498-603), taking the
recipe's ingredient list; the total is rounded to 2 decimals at the end. -/
def create_grocery_list (catalog : Catalog) (ingredients : List PyIngredient)
    (store : String) : Option GroceryListResult :=
  (groceryLoop catalog ingredients).map (fun r =>
    { store := store, items := r.1, total_estimated_cost := pyRound r.2.1 2
      kroger_items_found := r.2.2, total_items := ingredients.length })

/-- A typed `RecipeIngredient` of the from-recipe route (main.py
lines 206-211), reduced to the fields the route reads. -/
structure FRIngredient where
  name : String
  quantity : ℚ
  unit : String
deriving DecidableEq, Repr

/-- A grocery item dict built by the from-recipe route (main.py
lines 1078-1113), reduced to the priced fields. -/
structure FRItem where
  name : String
  quantity : ℚ
  unit : String
  price_per_unit : ℚ
  total_price : ℚ
  source : String
  available : Bool
deriving DecidableEq, Repr

/-- The ingredient loop of `create_grocery_list_from_recipe` (main.py lines
1060-1115): empty names are skipped; a catalog match with a truthy price is
priced at `price * quantity`; anything else is estimated at a flat
`2.50 * quantity`. -/
def fromRecipeLoop (catalog : Catalog) :
    List FRIngredient → List FRItem × ℚ × ℕ
  | [] => ([], 0, 0)
  | i :: rest =>
    let r := fromRecipeLoop catalog rest
    if i.name == "" then r
    else
      match catalog i.name with
      | some kp =>
        if pyTruthyQ kp.price then
          let pr := kp.price.getD 0
          ({ name := kp.name, quantity := i.quantity, unit := i.unit
             price_per_unit := pr, total_price := pr * i.quantity
             source := "kroger", available := true } :: r.1,
           pr * i.quantity + r.2.1, r.2.2 + 1)
        else
          ({ name := i.name, quantity := i.quantity, unit := i.unit
             price_per_unit := 5/2, total_price := 5/2 * i.quantity
             source := "estimated", available := false } :: r.1,
           5/2 * i.quantity + r.2.1, r.2.2)
      | none =>
        ({ name := i.name, quantity := i.quantity, unit := i.unit
           price_per_unit := 5/2, total_price := 5/2 * i.quantity
           source := "estimated", available := false } :: r.1,
         5/2 * i.quantity + r.2.1, r.2.2)

/-- The response of the from-recipe route (main.py lines 1135-1145):
`total_estimated_cost` is the accumulated `total_cost`, with no final
rounding. -/
structure FromRecipeResult where
  items : List FRItem
  total_estimated_cost : ℚ
  kroger_items_found : ℕ
  total_items : ℕ
deriving DecidableEq, Repr

/-- `create_grocery_list_from_recipe` (main.py lines 1056-1145), reduced to
its pricing behavior. -/
def create_grocery_list_from_recipe (catalog : Catalog)
    (ingredients : List FRIngredient) : FromRecipeResult :=
  let r := fromRecipeLoop catalog ingredients
  { items := r.1, total_estimated_cost := r.2.1
    kroger_items_found := r.2.2, total_items := r.1.length }

/-- An ingredient name counts as priced when the catalog search returns a
product with a truthy price (the condition both routes test). -/
def IsPriced (catalog : Catalog) (name : String) : Prop :=
  ∃ kp, catalog name = some kp ∧ pyTruthyQ kp.price = true

/-- A one-product catalog pricing "paneer" at $3.00, for concrete runs. -/
def c1Catalog : Catalog := fun n =>
  if n == "paneer" then
    some ⟨"Paneer 14oz", some 3, some "p1", none, some "BrandX"⟩
  else none

/-- A catalog that matches nothing, for concrete runs. -/
def c2Catalog : Catalog := fun _ => none

/-! ## Password hashing (`src/database.py` lines 46-63).

`passlib`'s `CryptContext.hash`/`verify` is an external salted primitive; it
is a parameter (`rawHash`, `rawVerify`) of the embedded functions, and the
claims about it assume the ideal behavior `rawVerify a (rawHash b) ↔ a = b`.
The repository's own contribution — truncating the UTF-8 encoding to 72
bytes and decoding back with `errors='ignore'` — is embedded exactly. -/

/-- UTF-8 encoding of one Unicode scalar value (RFC 3629). -/
def utf8EncodeChar (c : Char) : List ℕ :=
  let n := c.toNat
  if n < 128 then [n]
  else if n < 2048 then [192 + n / 64, 128 + n % 64]
  else if n < 65536 then [224 + n / 4096, 128 + n / 64 % 64, 128 + n % 64]
  else [240 + n / 262144, 128 + n / 4096 % 64, 128 + n / 64 % 64,
    128 + n % 64]

/-- Python `s.encode('utf-8')` as a byte list. -/
def utf8Encode (s : String) : List ℕ :=
  (s.data.map utf8EncodeChar).flatten

/-- Is `b` a UTF-8 continuation byte (`10xxxxxx`)? -/
def isContByte (b : ℕ) : Bool :=
  128 ≤ b && b < 192

/-- Fuelled UTF-8 decoder dropping undecodable bytes; every step consumes at
least one byte, so fuel equal to the byte count decodes everything. -/
def utf8DecodeIgnoreAux : ℕ → List ℕ → List Char
  | 0, _ => []
  | _ + 1, [] => []
  | fuel + 1, b :: rest =>
    if b < 128 then Char.ofNat b :: utf8DecodeIgnoreAux fuel rest
    else if b < 194 then utf8DecodeIgnoreAux fuel rest
    else if b < 224 then
      match rest with
      | [] => []
      | b1 :: rest1 =>
        if isContByte b1 then
          Char.ofNat ((b - 192) * 64 + (b1 - 128)) ::
            utf8DecodeIgnoreAux fuel rest1
        else utf8DecodeIgnoreAux fuel rest
    else if b < 240 then
      match rest with
      | [] => []
      | [_] => []
      | b1 :: b2 :: rest2 =>
        if isContByte b1 && isContByte b2 then
          Char.ofNat ((b - 224) * 4096 + (b1 - 128) * 64 + (b2 - 128)) ::
            utf8DecodeIgnoreAux fuel rest2
        else utf8DecodeIgnoreAux fuel rest
    else if b < 245 then
      match rest with
      | [] => []
      | [_] => []
      | [_, _] => []
      | b1 :: b2 :: b3 :: rest3 =>
        if isContByte b1 && isContByte b2 && isContByte b3 then
          Char.ofNat ((b - 240) * 262144 + (b1 - 128) * 4096 +
            (b2 - 128) * 64 + (b3 - 128)) ::
            utf8DecodeIgnoreAux fuel rest3
        else utf8DecodeIgnoreAux fuel rest
    else utf8DecodeIgnoreAux fuel rest

/-- Python `bytes.decode('utf-8', errors='ignore')`: decode and drop bytes
that do not form a complete sequence — in particular a multi-byte sequence
cut off at the end of the input is dropped. -/
def utf8DecodeIgnore (l : List ℕ) : List Char :=
  utf8DecodeIgnoreAux l.length l

/-- The 72-byte truncation shared by `User.hash_password` and
`User.verify_password` (database.py lines 46-63). -/
def truncate72 (password : String) : String :=
  if (utf8Encode password).length > 72 then
    String.mk (utf8DecodeIgnore ((utf8Encode password).take 72))
  else password

/-- `User.hash_password(password)` (database.py lines 55-63). -/
def hash_password (rawHash : String → String) (password : String) : String :=
  rawHash (truncate72 password)

/-- `User.verify_password(self, password)` (database.py lines 46-53). -/
def verify_password (rawVerify : String → String → Bool)
    (password hashed : String) : Bool :=
  rawVerify (truncate72 password) hashed

/-! ## Registration (`src/main.py` lines 244-326, `src/database.py`
lines 282-289).

The relational store is a pair of row lists; SQLAlchemy's autoincrement
primary key is modelled as one more than the largest existing id. -/

/-- A `users` table row. -/
structure UserRow where
  id : ℕ
  email : String
  username : String
  name : String
  hashed_password : String
deriving DecidableEq, Repr

/-- A `user_profiles` table row, reduced to the fields registration sets. -/
structure ProfileRow where
  user_id : ℕ
  daily_calories : ℚ
  dietary_restrictions : List String
  likes : List String
  additional_information : Option String
  target_protein_g : Option ℚ
  target_carbs_g : Option ℚ
  target_fat_g : Option ℚ
deriving DecidableEq, Repr

/-- The relational database state the register route touches. -/
structure DBState where
  users : List UserRow
  profiles : List ProfileRow
deriving DecidableEq, Repr

/-- The optional `macros` sub-object of a registration request. -/
structure MacrosOptional where
  protein : Option ℚ
  carbs : Option ℚ
  fats : Option ℚ
deriving DecidableEq, Repr

/-- A `UserRegister` request body (main.py lines 125-157). -/
structure UserRegister where
  email : String
  username : String
  password : String
  name : String
  daily_calories : ℚ
  dietary_restrictions : List String
  likes : List String
  additional_information : Option String
  macros : Option MacrosOptional
deriving DecidableEq, Repr

/-- `get_user_by_email(db, email)` (database.py lines 282-284). -/
def get_user_by_email (db : DBState) (email : String) : Option UserRow :=
  db.users.find? (fun u => u.email == email)

/-- `get_user_by_username(db, username)` (database.py lines 287-289). -/
def get_user_by_username (db : DBState) (username : String) : Option UserRow :=
  db.users.find? (fun u => u.username == username)

/-- The autoincrement id the flush assigns to the new user. -/
def nextUserId (db : DBState) : ℕ :=
  (db.users.map (fun u => u.id)).foldr max 0 + 1

/-- Outcome of the register route: a 400 rejection before any insert, or the
committed state together with the new user's id. -/
inductive RegisterOutcome where
  | rejected (detail : String)
  | ok (db : DBState) (userId : ℕ)
deriving DecidableEq, Repr

/-- The `/auth/register` handler (main.py lines 244-326): duplicate email
then duplicate username pre-checks, then one transaction inserting the User
and its UserProfile. -/
def register (rawHash : String → String) (db : DBState) (req : UserRegister) :
    RegisterOutcome :=
  if (get_user_by_email db req.email).isSome then
    .rejected "Email already registered"
  else if (get_user_by_username db req.username).isSome then
    .rejected "Username already taken"
  else
    let uid := nextUserId db
    let user : UserRow :=
      { id := uid, email := req.email, username := req.username
        name := req.name
        hashed_password := hash_password rawHash req.password }
    let profile : ProfileRow :=
      { user_id := uid, daily_calories := req.daily_calories
        dietary_restrictions := req.dietary_restrictions, likes := req.likes
        additional_information := req.additional_information
        target_protein_g :=
          match req.macros with | some m => m.protein | none => none
        target_carbs_g :=
          match req.macros with | some m => m.carbs | none => none
        target_fat_g :=
          match req.macros with | some m => m.fats | none => none }
    .ok { users := db.users ++ [user], profiles := db.profiles ++ [profile] }
      uid

/-! ## Meal-plan regeneration (`src/main.py` lines 843-910). -/

/-- A `daily_meal_plans` table row. -/
structure PlanRow where
  user_id : ℕ
  date : String
  breakfast_recipe_id : Option ℕ
  lunch_recipe_id : Option ℕ
  dinner_recipe_id : Option ℕ
  user_rating : Option ℕ
  notes : Option String
  is_completed : Bool
  completed_at : Option String
deriving DecidableEq, Repr

/-- The meal-plan update of `regenerate_meal` (main.py lines 898-903):
repoint the foreign key of the requested meal type. -/
def updateMealPlan (plan : PlanRow) (meal_type : String)
    (new_recipe_id : ℕ) : PlanRow :=
  if meal_type = "breakfast" then
    { plan with breakfast_recipe_id := some new_recipe_id }
  else if meal_type = "lunch" then
    { plan with lunch_recipe_id := some new_recipe_id }
  else if meal_type = "dinner" then
    { plan with dinner_recipe_id := some new_recipe_id }
  else plan

/-- In-place mutation of the first row matching `pred`, as SQLAlchemy's
`query(...).first()` followed by attribute assignment behaves. -/
def modifyFirstPlan (pred : PlanRow → Bool) (f : PlanRow → PlanRow) :
    List PlanRow → List PlanRow
  | [] => []
  | p :: rest =>
    if pred p then f p :: rest else p :: modifyFirstPlan pred f rest

/-- The `/daily-meals/regenerate` handler (main.py lines 843-910), reduced to
its effect on the plan table: 404 (`none`) when no plan matches the caller
and date, otherwise the matching plan's foreign key for `meal_type` is
repointed to the freshly inserted recipe's id. -/
def regenerate_meal (plans : List PlanRow) (userId : ℕ) (date : String)
    (meal_type : String) (new_recipe_id : ℕ) : Option (List PlanRow) :=
  match plans.find? (fun p => p.user_id == userId && p.date == date) with
  | none => none
  | some _ =>
    some (modifyFirstPlan (fun p => p.user_id == userId && p.date == date)
      (fun p => updateMealPlan p meal_type new_recipe_id) plans)

/-! ## Theorems -/

lemma roundHalfEven_err (q : ℚ) : |(roundHalfEven q : ℚ) - q| ≤ 1/2 := by
  have h0 : (⌊q⌋ : ℚ) ≤ q := Int.floor_le q
  have h1 : q < ⌊q⌋ + 1 := Int.lt_floor_add_one q
  unfold roundHalfEven
  split
  · rw [abs_le]; constructor <;> linarith
  · split
    · rw [abs_le]; push_cast; constructor <;> linarith
    · split <;> (rw [abs_le]; push_cast; constructor <;> linarith)

lemma roundHalfEven_intCast (m : ℤ) : roundHalfEven (m : ℚ) = m := by
  unfold roundHalfEven
  rw [Int.floor_intCast]
  norm_num

lemma roundHalfEven_add_two_mul (q : ℚ) (k : ℤ) :
    roundHalfEven (q + 2 * k) = roundHalfEven q + 2 * k := by
  have hf : ⌊q + 2 * (k : ℚ)⌋ = ⌊q⌋ + 2 * k := by
    have := Int.floor_add_int q (2 * k)
    push_cast at this
    rw [← this]
  have hr : q + 2 * (k : ℚ) - (⌊q⌋ + 2 * (k : ℚ)) = q - ⌊q⌋ := by ring
  have hm : (⌊q⌋ + 2 * k) % 2 = ⌊q⌋ % 2 := by omega
  unfold roundHalfEven
  rw [hf]
  push_cast
  rw [hr, hm]
  split_ifs <;> ring

lemma pyRound_zero (q : ℚ) : pyRound q 0 = roundHalfEven q := by
  simp [pyRound]

lemma pyRound_one_err (q : ℚ) : |pyRound q 1 - q| ≤ 1/20 := by
  have h := roundHalfEven_err (q * 10)
  have heq : pyRound q 1 - q = ((roundHalfEven (q * 10) : ℚ) - q * 10) / 10 := by
    simp only [pyRound, pow_one]
    ring
  rw [heq, abs_div]
  rw [show |(10 : ℚ)| = 10 from by norm_num]
  rw [div_le_div_iff₀ (by norm_num) (by norm_num)]
  linarith

lemma pyRound_one_exact (m : ℤ) : pyRound ((m : ℚ) / 10) 1 = (m : ℚ) / 10 := by
  simp only [pyRound, pow_one]
  rw [div_mul_cancel₀ _ (by norm_num : (10 : ℚ) ≠ 0), roundHalfEven_intCast]

lemma gram_sum_of_nat (n : ℕ) :
    |pyRound ((n : ℚ) * (1/4)) 1 + pyRound ((n : ℚ) * (7/20)) 1 +
      pyRound ((n : ℚ) * (3/10)) 1 + pyRound ((n : ℚ) * (1/10)) 1 - n| ≤
      1/10 := by
  have e3 : pyRound ((n : ℚ) * (3/10)) 1 = (n : ℚ) * (3/10) := by
    have h := pyRound_one_exact (3 * n)
    have hc : ((3 * n : ℤ) : ℚ) / 10 = (n : ℚ) * (3/10) := by push_cast; ring
    rw [hc] at h
    exact h
  have e4 : pyRound ((n : ℚ) * (1/10)) 1 = (n : ℚ) * (1/10) := by
    have h := pyRound_one_exact (n : ℤ)
    have hc : ((n : ℤ) : ℚ) / 10 = (n : ℚ) * (1/10) := by push_cast; ring
    rw [hc] at h
    exact h
  have h1 := pyRound_one_err ((n : ℚ) * (1/4))
  have h2 := pyRound_one_err ((n : ℚ) * (7/20))
  have key : pyRound ((n : ℚ) * (1/4)) 1 + pyRound ((n : ℚ) * (7/20)) 1 +
      pyRound ((n : ℚ) * (3/10)) 1 + pyRound ((n : ℚ) * (1/10)) 1 - n =
      (pyRound ((n : ℚ) * (1/4)) 1 - (n : ℚ) * (1/4)) +
      (pyRound ((n : ℚ) * (7/20)) 1 - (n : ℚ) * (7/20)) := by
    rw [e3, e4]; ring
  rw [key]
  calc |(pyRound ((n : ℚ) * (1/4)) 1 - (n : ℚ) * (1/4)) +
      (pyRound ((n : ℚ) * (7/20)) 1 - (n : ℚ) * (7/20))| ≤
      |pyRound ((n : ℚ) * (1/4)) 1 - (n : ℚ) * (1/4)| +
      |pyRound ((n : ℚ) * (7/20)) 1 - (n : ℚ) * (7/20)| := abs_add _ _
    _ ≤ 1/10 := by linarith

lemma calSum_add_forty (k : ℚ) : calSum (k + 40) = calSum k + 40 := by
  have b1 : (k + 40) * (1/4) = k * (1/4) + 2 * ((5 : ℤ) : ℚ) := by
    push_cast; ring
  have b2 : (k + 40) * (7/20) = k * (7/20) + 2 * ((7 : ℤ) : ℚ) := by
    push_cast; ring
  have b3 : (k + 40) * (3/10) = k * (3/10) + 2 * ((6 : ℤ) : ℚ) := by
    push_cast; ring
  have b4 : (k + 40) * (1/10) = k * (1/10) + 2 * ((2 : ℤ) : ℚ) := by
    push_cast; ring
  unfold calSum
  rw [pyRound_zero, pyRound_zero, pyRound_zero, pyRound_zero,
    pyRound_zero, pyRound_zero, pyRound_zero, pyRound_zero,
    b1, b2, b3, b4,
    roundHalfEven_add_two_mul, roundHalfEven_add_two_mul,
    roundHalfEven_add_two_mul, roundHalfEven_add_two_mul]
  push_cast
  ring

lemma calSum_nat_bound (n : ℕ) : |calSum n - n| ≤ 1 := by
  induction n using Nat.strong_induction_on with
  | _ n ih =>
    by_cases h : n < 40
    · interval_cases n <;>
        norm_num [calSum, pyRound, roundHalfEven]
    · have h40 : 40 ≤ n := not_lt.1 h
      have hn : (n : ℚ) = ((n - 40 : ℕ) : ℚ) + 40 := by
        push_cast [Nat.cast_sub h40]
        ring
      have hgoal : calSum n - n = calSum ((n - 40 : ℕ) : ℚ) - ((n - 40 : ℕ) : ℚ) := by
        rw [hn, calSum_add_forty]
        ring
      rw [hgoal]
      exact ih (n - 40) (by omega)

lemma mealDistribution_breakfast : mealDistribution "breakfast" = 1/4 := by
  simp [mealDistribution]

lemma mealDistribution_lunch : mealDistribution "lunch" = 7/20 := by
  simp [mealDistribution]

lemma mealDistribution_dinner : mealDistribution "dinner" = 3/10 := by
  simp [mealDistribution]

lemma mealDistribution_snack : mealDistribution "snack" = 1/10 := by
  simp [mealDistribution]

lemma truthy_extractMealType (ml : String) :
    pyTruthyStr (extractMealType ml) = (extractMealType ml).isSome := by
  unfold extractMealType
  repeat' split
  all_goals rfl

lemma truthy_extractCookTime (ml : String) :
    pyTruthyStr (extractCookTime ml) = (extractCookTime ml).isSome := by
  unfold extractCookTime
  repeat' split
  all_goals rfl

lemma is_request_complete_char (p : ChatPreferences)
    (hm : pyTruthyStr p.meal_type = p.meal_type.isSome)
    (hc : pyTruthyStr p.cook_time = p.cook_time.isSome) :
    (((is_request_complete p).1 = true) ↔
      (p.meal_type.isSome ∧ p.cook_time.isSome))
    ∧ (p.meal_type = none →
        is_request_complete p = (false, some mealTypeQuestion))
    ∧ (p.meal_type ≠ none → p.cook_time = none →
        is_request_complete p = (false, some cookTimeQuestion)) := by
  unfold is_request_complete
  rw [hm, hc]
  cases hmt : p.meal_type <;> cases hct : p.cook_time <;> simp

/-- C5: for every user message, the chat intent check reports the request
complete exactly when both the `meal_type` and `cook_time` slots were
resolved from the message; when incomplete it returns the fixed clarifying
question for the first missing slot, the meal-type question taking priority
over the cook-time question. -/
theorem chat_request_completeness (msg : String) (prof : ChatProfile) :
    (((is_request_complete (extract_preferences msg prof)).1 = true) ↔
      ((extract_preferences msg prof).meal_type.isSome ∧
        (extract_preferences msg prof).cook_time.isSome))
    ∧ ((extract_preferences msg prof).meal_type = none →
        is_request_complete (extract_preferences msg prof) =
          (false, some mealTypeQuestion))
    ∧ ((extract_preferences msg prof).meal_type ≠ none →
        (extract_preferences msg prof).cook_time = none →
        is_request_complete (extract_preferences msg prof) =
          (false, some cookTimeQuestion)) :=
  is_request_complete_char (extract_preferences msg prof)
    (truthy_extractMealType (pyLower msg))
    (truthy_extractCookTime (pyLower msg))

/-- C5 witness: "dinner" resolves a meal type but no cook time, so the check
asks the cook-time question; "quick dinner" resolves both and is complete. -/
theorem chat_request_completeness_witness :
    ((extract_preferences "dinner" ⟨"vegetarian", [], []⟩).meal_type ≠ none ∧
      (extract_preferences "dinner" ⟨"vegetarian", [], []⟩).cook_time = none ∧
      is_request_complete (extract_preferences "dinner" ⟨"vegetarian", [], []⟩)
        = (false, some cookTimeQuestion))
    ∧ (is_request_complete
        (extract_preferences "quick dinner" ⟨"vegetarian", [], []⟩)).1 =
        true :=
  ⟨⟨by decide, by decide,
      (chat_request_completeness "dinner" ⟨"vegetarian", [], []⟩).2.2
        (by decide) (by decide)⟩,
    ((chat_request_completeness "quick dinner" ⟨"vegetarian", [], []⟩).1).mpr
      (by decide)⟩

/-- C3 (amended): per-meal targets scale each macro by the breakfast /
lunch / dinner / snack ratios with the stated rounding (and the 140/200/50/
1800 defaults when unset), and for every whole-number macro target the four
per-meal allocations sum back to the target within 0.1 g for grams and
1 kcal for calories.  (For fractional targets the gram tolerance can be
exceeded; see the counterexample.) -/
theorem macro_distribution_sums (P C F K : ℕ) (meal_type : String) :
    calculate_target_macros none meal_type =
      calculate_target_macros (some defaultTargetMacros) meal_type
    ∧ |((calculate_target_macros (some ⟨P, C, F, K⟩) "breakfast").protein_g
        + (calculate_target_macros (some ⟨P, C, F, K⟩) "lunch").protein_g
        + (calculate_target_macros (some ⟨P, C, F, K⟩) "dinner").protein_g
        + (calculate_target_macros (some ⟨P, C, F, K⟩) "snack").protein_g)
        - P| ≤ 1/10
    ∧ |((calculate_target_macros (some ⟨P, C, F, K⟩) "breakfast").carbs_g
        + (calculate_target_macros (some ⟨P, C, F, K⟩) "lunch").carbs_g
        + (calculate_target_macros (some ⟨P, C, F, K⟩) "dinner").carbs_g
        + (calculate_target_macros (some ⟨P, C, F, K⟩) "snack").carbs_g)
        - C| ≤ 1/10
    ∧ |((calculate_target_macros (some ⟨P, C, F, K⟩) "breakfast").fat_g
        + (calculate_target_macros (some ⟨P, C, F, K⟩) "lunch").fat_g
        + (calculate_target_macros (some ⟨P, C, F, K⟩) "dinner").fat_g
        + (calculate_target_macros (some ⟨P, C, F, K⟩) "snack").fat_g)
        - F| ≤ 1/10
    ∧ |((calculate_target_macros (some ⟨P, C, F, K⟩) "breakfast").calories
        + (calculate_target_macros (some ⟨P, C, F, K⟩) "lunch").calories
        + (calculate_target_macros (some ⟨P, C, F, K⟩) "dinner").calories
        + (calculate_target_macros (some ⟨P, C, F, K⟩) "snack").calories)
        - K| ≤ 1 := by
  refine ⟨rfl, ?_, ?_, ?_, ?_⟩
  · exact gram_sum_of_nat P
  · exact gram_sum_of_nat C
  · exact gram_sum_of_nat F
  · exact calSum_nat_bound K

/-- C3 counterexample: for the fractional protein target 0.14 g every
per-meal allocation rounds to 0, so the four allocations sum to 0, which
misses the target by 0.14 g — more than the claimed 0.1 g tolerance.  (The
claim as stated quantifies over every user macro target.) -/
theorem macro_distribution_sums_counterexample :
    ((calculate_target_macros (some ⟨14/100, 200, 50, 1800⟩)
        "breakfast").protein_g
      + (calculate_target_macros (some ⟨14/100, 200, 50, 1800⟩)
        "lunch").protein_g
      + (calculate_target_macros (some ⟨14/100, 200, 50, 1800⟩)
        "dinner").protein_g
      + (calculate_target_macros (some ⟨14/100, 200, 50, 1800⟩)
        "snack").protein_g) = 0
    ∧ ¬(|((calculate_target_macros (some ⟨14/100, 200, 50, 1800⟩)
        "breakfast").protein_g
      + (calculate_target_macros (some ⟨14/100, 200, 50, 1800⟩)
        "lunch").protein_g
      + (calculate_target_macros (some ⟨14/100, 200, 50, 1800⟩)
        "dinner").protein_g
      + (calculate_target_macros (some ⟨14/100, 200, 50, 1800⟩)
        "snack").protein_g) - (14/100 : ℚ)| ≤ 1/10) := by
  have hsum : ((calculate_target_macros (some ⟨14/100, 200, 50, 1800⟩)
        "breakfast").protein_g
      + (calculate_target_macros (some ⟨14/100, 200, 50, 1800⟩)
        "lunch").protein_g
      + (calculate_target_macros (some ⟨14/100, 200, 50, 1800⟩)
        "dinner").protein_g
      + (calculate_target_macros (some ⟨14/100, 200, 50, 1800⟩)
        "snack").protein_g) = 0 := by
    simp only [calculate_target_macros, Option.getD_some,
      mealDistribution_breakfast, mealDistribution_lunch,
      mealDistribution_dinner, mealDistribution_snack]
    norm_num [pyRound, roundHalfEven]
  refine ⟨hsum, ?_⟩
  rw [hsum]
  rw [show |(0 : ℚ) - 14/100| = 14/100 from by
    rw [abs_of_nonpos (by norm_num)]; norm_num]
  norm_num

/-- C4: for a declared nonzero macro target, validation marks the macro met
exactly when the relative deviation is at most 10% (a deviation of exactly
10.0% is met, 10.01% is not), and reports `round(actual/target*100)` as the
percentage; a macro with no declared target reports `met` and `percentage`
absent. -/
theorem macro_validation_tolerance (a t : ℚ) (ht : t ≠ 0) :
    (((checkMacroEntry a (some t)).met = some true) ↔ |a - t| / t ≤ 1/10)
    ∧ (checkMacroEntry a (some t)).percentage =
        some (roundHalfEven (a / t * 100))
    ∧ (|a - t| / t = 1/10 → (checkMacroEntry a (some t)).met = some true)
    ∧ (|a - t| / t = 1001/10000 →
        (checkMacroEntry a (some t)).met = some false)
    ∧ (checkMacroEntry a none).met = none
    ∧ (checkMacroEntry a none).percentage = none := by
  have htr : pyTruthyQ (some t) = true := by simp [pyTruthyQ, ht]
  refine ⟨?_, ?_, ?_, ?_, rfl, rfl⟩
  · simp [checkMacroEntry, htr]
  · simp [checkMacroEntry, htr]
  · intro h
    simp [checkMacroEntry, htr, h]
  · intro h
    simp only [checkMacroEntry, htr, if_true, Option.getD_some]
    norm_num [h]

/-- C4 witness: target 100 with actual 110 (exactly 10% over) is met; actual
110.01 (10.01% over) is not met; percentage of 110/100 reports 110. -/
theorem macro_validation_tolerance_witness :
    ((100 : ℚ) ≠ 0)
    ∧ (checkMacroEntry 110 (some 100)).met = some true
    ∧ (checkMacroEntry (110 + 1/100) (some 100)).met = some false
    ∧ (checkMacroEntry 110 (some 100)).percentage = some 110 := by
  have h1 := (macro_validation_tolerance 110 100 (by norm_num)).2.2.1
    (by norm_num)
  have h2 := (macro_validation_tolerance (110 + 1/100) 100
    (by norm_num)).2.2.2.1 (by
      rw [show |(110 : ℚ) + 1/100 - 100| = 1001/100 from by
        rw [abs_of_nonneg (by norm_num)]; norm_num]
      norm_num)
  have h3 := (macro_validation_tolerance 110 100 (by norm_num)).2.1
  refine ⟨by norm_num, h1, h2, ?_⟩
  rw [h3]
  norm_num [roundHalfEven]

/-- C10: a numerically zero macro target behaves exactly like an undeclared
one (met and percentage absent); a profile with all three targets zero or
absent skips validation entirely; and the validation formula divides by the
target only when the target is present and nonzero. -/
theorem zero_macro_target_is_absent (a ap ac af : ℚ) (tp tc tf : Option ℚ)
    (hz : (tp = none ∨ tp = some 0) ∧ (tc = none ∨ tc = some 0) ∧
      (tf = none ∨ tf = some 0)) :
    ((checkMacroEntry a (some 0)).met = none ∧
      (checkMacroEntry a (some 0)).percentage = none ∧
      (checkMacroEntry a none).met = none ∧
      (checkMacroEntry a none).percentage = none)
    ∧ dailyMacroValidation ap ac af tp tc tf = none
    ∧ (∀ b u, ((checkMacroEntry b u).met ≠ none ∨
        (checkMacroEntry b u).percentage ≠ none) →
        ∃ tv, u = some tv ∧ tv ≠ 0) := by
  refine ⟨⟨by simp [checkMacroEntry, pyTruthyQ], by simp [checkMacroEntry, pyTruthyQ],
    rfl, rfl⟩, ?_, ?_⟩
  · obtain ⟨h1, h2, h3⟩ := hz
    have e1 : pyTruthyQ tp = false := by rcases h1 with h | h <;> simp [h, pyTruthyQ]
    have e2 : pyTruthyQ tc = false := by rcases h2 with h | h <;> simp [h, pyTruthyQ]
    have e3 : pyTruthyQ tf = false := by rcases h3 with h | h <;> simp [h, pyTruthyQ]
    simp [dailyMacroValidation, has_macro_targets, e1, e2, e3]
  · intro b u h
    by_cases htr : pyTruthyQ u = true
    · match u, htr with
      | some tv, htr =>
        exact ⟨tv, rfl, by simpa [pyTruthyQ] using htr⟩
    · rcases h with h | h <;> simp [checkMacroEntry, htr] at h
/-- C10 witness: with targets `some 0`, `none`, `some 0` the gate skips
validation and the zero target reports absent met/percentage. -/
theorem zero_macro_target_is_absent_witness :
    dailyMacroValidation 1 2 3 (some 0) none (some 0) = none ∧
      (checkMacroEntry 1 (some 0)).met = none :=
  ⟨(zero_macro_target_is_absent 1 1 2 3 (some 0) none (some 0)
      ⟨Or.inr rfl, Or.inl rfl, Or.inr rfl⟩).2.1,
    (zero_macro_target_is_absent 1 1 2 3 (some 0) none (some 0)
      ⟨Or.inr rfl, Or.inl rfl, Or.inr rfl⟩).1.1⟩

/-- C9: regenerating a meal repoints exactly the requested meal type's
foreign key to the new recipe id and leaves every other field of the daily
meal plan (the other two foreign keys, user, date, rating, notes and
completion fields) unchanged. -/
theorem regenerate_updates_exactly_one_meal (plan : PlanRow) (rid : ℕ) :
    updateMealPlan plan "breakfast" rid =
        { plan with breakfast_recipe_id := some rid }
    ∧ updateMealPlan plan "lunch" rid =
        { plan with lunch_recipe_id := some rid }
    ∧ updateMealPlan plan "dinner" rid =
        { plan with dinner_recipe_id := some rid } :=
  ⟨rfl, rfl, rfl⟩

lemma stableMaxHead_eq_none_iff (l : List (ℕ × KrogerProduct)) :
    stableMaxHead l = none ↔ l = [] := by
  cases l with
  | nil => simp [stableMaxHead]
  | cons x xs =>
    constructor
    · intro h
      simp only [stableMaxHead] at h
      cases hxs : stableMaxHead xs with
      | none => rw [hxs] at h; exact Option.noConfusion h
      | some y =>
        rw [hxs] at h
        change (if x.1 < y.1 then some y else some x) = none at h
        by_cases hc : x.1 < y.1
        · rw [if_pos hc] at h; exact Option.noConfusion h
        · rw [if_neg hc] at h; exact Option.noConfusion h
    · intro h; simp at h

lemma stableMaxHead_spec (l : List (ℕ × KrogerProduct))
    (x : ℕ × KrogerProduct) (h : stableMaxHead l = some x) :
    x ∈ l ∧ ∀ y ∈ l, y.1 ≤ x.1 := by
  induction l generalizing x with
  | nil => simp [stableMaxHead] at h
  | cons a t ih =>
    simp only [stableMaxHead] at h
    cases ht : stableMaxHead t with
    | none =>
      rw [ht] at h
      change some a = some x at h
      have hax : a = x := Option.some.inj h
      subst hax
      have hte : t = [] := (stableMaxHead_eq_none_iff t).mp ht
      subst hte
      simp
    | some y =>
      rw [ht] at h
      change (if a.1 < y.1 then some y else some a) = some x at h
      obtain ⟨hym, hyx⟩ := ih y ht
      by_cases hc : a.1 < y.1
      · rw [if_pos hc] at h
        have hxy : y = x := Option.some.inj h
        subst hxy
        refine ⟨List.mem_cons_of_mem a hym, ?_⟩
        intro z hz
        rcases List.mem_cons.mp hz with hz | hz
        · subst hz; exact le_of_lt hc
        · exact hyx z hz
      · rw [if_neg hc] at h
        have hxa : a = x := Option.some.inj h
        subst hxa
        refine ⟨List.mem_cons_self a t, ?_⟩
        intro z hz
        rcases List.mem_cons.mp hz with hz | hz
        · subst hz; exact le_refl _
        · exact le_trans (hyx z hz) (not_lt.mp hc)

lemma stableMaxHead_cons_of_max (a : ℕ × KrogerProduct)
    (t : List (ℕ × KrogerProduct)) (h : ∀ y ∈ t, y.1 ≤ a.1) :
    stableMaxHead (a :: t) = some a := by
  simp only [stableMaxHead]
  cases ht : stableMaxHead t with
  | none => rfl
  | some y =>
    have hy := (stableMaxHead_spec t y ht).1
    have hnlt : ¬(a.1 < y.1) := not_lt.mpr (h y hy)
    change (if a.1 < y.1 then some y else some a) = some a
    rw [if_neg hnlt]

lemma find_best_eq_none_iff (products : List KrogerProduct) (ing : String) :
    find_best_product_match products ing = none ↔
      ∀ r ∈ products, scoreProduct ing r = 0 := by
  unfold find_best_product_match
  rw [Option.map_eq_none', stableMaxHead_eq_none_iff,
    List.filterMap_eq_nil_iff]
  constructor
  · intro h r hr
    have hx := h r hr
    by_contra hne
    have hpos : 0 < scoreProduct ing r := Nat.pos_of_ne_zero hne
    simp [hpos] at hx
  · intro h r hr
    simp [h r hr]

lemma find_best_spec (products : List KrogerProduct) (ing : String)
    (b : KrogerProduct) (h : find_best_product_match products ing = some b) :
    b ∈ products ∧
      ∀ r ∈ products, scoreProduct ing r ≤ scoreProduct ing b := by
  unfold find_best_product_match at h
  obtain ⟨x, hx, hxb⟩ := Option.map_eq_some'.mp h
  obtain ⟨hxmem, hxmax⟩ := stableMaxHead_spec _ x hx
  obtain ⟨a, ha, hfa⟩ := List.mem_filterMap.mp hxmem
  by_cases hpos : 0 < scoreProduct ing a
  · rw [if_pos hpos] at hfa
    have hxa : x = (scoreProduct ing a, a) := (Option.some.inj hfa).symm
    subst hxa
    simp only at hxb
    subst hxb
    refine ⟨ha, ?_⟩
    intro r hr
    by_cases h0 : 0 < scoreProduct ing r
    · have hmem : (scoreProduct ing r, r) ∈ products.filterMap (fun p =>
        if 0 < scoreProduct ing p then some (scoreProduct ing p, p)
        else none) :=
        List.mem_filterMap.mpr ⟨r, hr, by rw [if_pos h0]⟩
      exact hxmax _ hmem
    · omega
  · rw [if_neg hpos] at hfa
    exact Option.noConfusion hfa

lemma find_best_cons_of_max (p : KrogerProduct)
    (products : List KrogerProduct) (ing : String)
    (hpos : 0 < scoreProduct ing p)
    (hmax : ∀ r ∈ products, scoreProduct ing r ≤ scoreProduct ing p) :
    find_best_product_match (p :: products) ing = some p := by
  unfold find_best_product_match
  rw [List.filterMap_cons, if_pos hpos]
  rw [stableMaxHead_cons_of_max]
  · rfl
  · intro y hy
    obtain ⟨r, hr, hfr⟩ := List.mem_filterMap.mp hy
    by_cases h0 : 0 < scoreProduct ing r
    · rw [if_pos h0] at hfr
      have hyr : y = (scoreProduct ing r, r) := (Option.some.inj hfr).symm
      subst hyr
      exact hmax r hr
    · rw [if_neg h0] at hfr
      exact Option.noConfusion hfr

lemma find_best_pair_snd (p q : KrogerProduct) (ing : String)
    (hlt : scoreProduct ing q < scoreProduct ing p) :
    find_best_product_match [q, p] ing = some p := by
  unfold find_best_product_match
  have hp0 : 0 < scoreProduct ing p := by omega
  by_cases h0 : 0 < scoreProduct ing q
  · rw [List.filterMap_cons, if_pos h0, List.filterMap_cons, if_pos hp0,
      List.filterMap_nil]
    change (Option.map (fun sp => sp.2)
      (if scoreProduct ing q < scoreProduct ing p then
        some (scoreProduct ing p, p)
      else some (scoreProduct ing q, q))) = some p
    rw [if_pos hlt]
    rfl
  · rw [List.filterMap_cons, if_neg h0, List.filterMap_cons, if_pos hp0,
      List.filterMap_nil]
    rfl

/-- C6: product scoring starts each candidate at 0 and adds 10 for price
information, 5 / 3 for substring containment of the ingredient in the
description and conversely, 2 per shared word and 1 for a kroger / private
selection brand (this is the definition of `scoreProduct`); zero-scoring
candidates are discarded (the match is `none` exactly when every candidate
scores 0), the returned candidate has maximal score with ties broken by
original result order, and a priced candidate whose words fully overlap the
ingredient always ranks above an unpriced candidate with no overlap, in
either result order. -/
theorem product_scoring_and_ranking (ing : String)
    (products : List KrogerProduct) (p q : KrogerProduct) :
    (find_best_product_match products ing = none ↔
      ∀ r ∈ products, scoreProduct ing r = 0)
    ∧ (∀ b, find_best_product_match products ing = some b →
        b ∈ products ∧
          ∀ r ∈ products, scoreProduct ing r ≤ scoreProduct ing b)
    ∧ (0 < scoreProduct ing p →
        (∀ r ∈ products, scoreProduct ing r ≤ scoreProduct ing p) →
        find_best_product_match (p :: products) ing = some p)
    ∧ (productHasPrice p = true →
        (∀ w ∈ pyWords (pyLower ing), w ∈ pyWords (pyLower p.description)) →
        productHasPrice q = false →
        strContains (pyLower q.description) (pyLower ing) = false →
        strContains (pyLower ing) (pyLower q.description) = false →
        commonWordCount (pyLower ing) (pyLower q.description) = 0 →
        (find_best_product_match [p, q] ing = some p ∧
          find_best_product_match [q, p] ing = some p)) := by
  refine ⟨find_best_eq_none_iff products ing,
    fun b hb => find_best_spec products ing b hb,
    fun h1 h2 => find_best_cons_of_max p products ing h1 h2, ?_⟩
  intro hp _hov hq hc1 hc2 hcw
  have hsp : 10 ≤ scoreProduct ing p := by
    unfold scoreProduct
    rw [hp]
    simp only [if_true]
    omega
  have hsq : scoreProduct ing q ≤ 1 := by
    unfold scoreProduct
    rw [hq, hc1, hc2, hcw]
    have hbrand : (if strContains (pyLower q.brand) "kroger" ||
        strContains (pyLower q.brand) "private selection" then 1 else 0) ≤
        1 := by
      split <;> omega
    simp only [Bool.false_eq_true, if_false]
    omega
  constructor
  · refine find_best_cons_of_max p [q] ing (by omega) ?_
    intro r hr
    have hrq : r = q := by simpa using hr
    subst hrq
    omega
  · exact find_best_pair_snd p q ing (by omega)

/-- C6 witness: for ingredient "milk", a priced Kroger-brand product whose
description contains the ingredient word beats an unpriced, non-overlapping
product in both result orders. -/
theorem product_scoring_and_ranking_witness :
    productHasPrice ⟨"whole milk", "Kroger", [some 3]⟩ = true
    ∧ find_best_product_match
        [⟨"whole milk", "Kroger", [some 3]⟩, ⟨"bread", "Acme", []⟩] "milk" =
        some ⟨"whole milk", "Kroger", [some 3]⟩
    ∧ find_best_product_match
        [⟨"bread", "Acme", []⟩, ⟨"whole milk", "Kroger", [some 3]⟩] "milk" =
        some ⟨"whole milk", "Kroger", [some 3]⟩ := by
  have h := (product_scoring_and_ranking "milk" []
    ⟨"whole milk", "Kroger", [some 3]⟩ ⟨"bread", "Acme", []⟩).2.2.2
    (by decide) (by decide) (by decide) (by decide) (by decide) (by decide)
  exact ⟨by decide, h.1, h.2⟩

/-- C7: hashing and verification both truncate the UTF-8 encoded password to
72 bytes (decoding back, dropping a partial sequence at the cut), assuming
the underlying salted primitive verifies exactly its own hashes
(`rawVerify a (rawHash b) = (a = b)`): a password verifies against its own
stored hash; a password whose 72-byte truncation differs fails; and two
passwords agreeing on their first 72 encoded bytes (both longer than 72
bytes) verify against each other's hashes, so a difference past the
boundary is invisible. -/
theorem password_truncation_verify (rawHash : String → String)
    (rawVerify : String → String → Bool)
    (hideal : ∀ a b, rawVerify a (rawHash b) = decide (a = b)) :
    (∀ pw, verify_password rawVerify pw (hash_password rawHash pw) = true)
    ∧ (∀ pw qw, truncate72 pw ≠ truncate72 qw →
        verify_password rawVerify pw (hash_password rawHash qw) = false)
    ∧ (∀ pw qw, (utf8Encode pw).length > 72 → (utf8Encode qw).length > 72 →
        (utf8Encode pw).take 72 = (utf8Encode qw).take 72 →
        verify_password rawVerify pw (hash_password rawHash qw) = true) := by
  refine ⟨?_, ?_, ?_⟩
  · intro pw
    unfold verify_password hash_password
    rw [hideal]
    simp
  · intro pw qw hne
    unfold verify_password hash_password
    rw [hideal]
    simp [hne]
  · intro pw qw h1 h2 h3
    have htr : truncate72 pw = truncate72 qw := by
      unfold truncate72
      rw [if_pos h1, if_pos h2, h3]
    unfold verify_password hash_password
    rw [hideal, htr]
    simp

/-- C7 witness: with an ideal primitive, a password verifies against its own
hash, a differently-truncated password fails, and two 74-byte passwords that
agree on their first 72 bytes verify against each other's hashes. -/
theorem password_truncation_verify_witness :
    verify_password (fun a b => decide (a = b)) "secret-password"
      (hash_password (fun s => s) "secret-password") = true
    ∧ truncate72 "alpha" ≠ truncate72 "beta"
    ∧ verify_password (fun a b => decide (a = b)) "alpha"
        (hash_password (fun s => s) "beta") = false
    ∧ (utf8Encode (String.mk (List.replicate 73 'a' ++ ['x']))).length > 72
    ∧ verify_password (fun a b => decide (a = b))
        (String.mk (List.replicate 73 'a' ++ ['x']))
        (hash_password (fun s => s)
          (String.mk (List.replicate 73 'a' ++ ['y']))) = true := by
  have h := password_truncation_verify (fun s => s)
    (fun a b => decide (a = b)) (fun _ _ => rfl)
  exact ⟨h.1 "secret-password", by decide, h.2.1 "alpha" "beta" (by decide),
    by decide, h.2.2 _ _ (by decide) (by decide) (by decide)⟩

lemma get_user_by_email_isSome_iff (db : DBState) (email : String) :
    (get_user_by_email db email).isSome = true ↔
      ∃ u ∈ db.users, u.email = email := by
  unfold get_user_by_email
  rw [List.find?_isSome]
  simp

lemma get_user_by_username_isSome_iff (db : DBState) (username : String) :
    (get_user_by_username db username).isSome = true ↔
      ∃ u ∈ db.users, u.username = username := by
  unfold get_user_by_username
  rw [List.find?_isSome]
  simp

/-- C8: registering with an email or username that collides with an existing
user is rejected with the 400 detail before any insert (the database state
is untouched), the email check coming first; a registration with fresh email
and username appends exactly one User row and one UserProfile row linked by
the new user id. -/
theorem registration_rejects_duplicates (rawHash : String → String)
    (db : DBState) (req : UserRegister) :
    ((∃ u ∈ db.users, u.email = req.email) →
        register rawHash db req = .rejected "Email already registered")
    ∧ ((∀ u ∈ db.users, u.email ≠ req.email) →
        (∃ u ∈ db.users, u.username = req.username) →
        register rawHash db req = .rejected "Username already taken")
    ∧ ((∀ u ∈ db.users, u.email ≠ req.email ∧ u.username ≠ req.username) →
        register rawHash db req = .ok
          ⟨db.users ++ [⟨nextUserId db, req.email, req.username, req.name,
              hash_password rawHash req.password⟩],
            db.profiles ++ [⟨nextUserId db, req.daily_calories,
              req.dietary_restrictions, req.likes,
              req.additional_information,
              (match req.macros with | some m => m.protein | none => none),
              (match req.macros with | some m => m.carbs | none => none),
              (match req.macros with | some m => m.fats | none => none)⟩]⟩
          (nextUserId db)) := by
  refine ⟨?_, ?_, ?_⟩
  · intro h
    have he : (get_user_by_email db req.email).isSome = true :=
      (get_user_by_email_isSome_iff db req.email).mpr h
    unfold register
    rw [if_pos he]
  · intro hne h
    have he : ¬((get_user_by_email db req.email).isSome = true) := fun hs =>
      match (get_user_by_email_isSome_iff db req.email).mp hs with
      | ⟨u, hu, hequ⟩ => hne u hu hequ
    have hu : (get_user_by_username db req.username).isSome = true :=
      (get_user_by_username_isSome_iff db req.username).mpr h
    unfold register
    rw [if_neg he, if_pos hu]
  · intro h
    have he : ¬((get_user_by_email db req.email).isSome = true) := fun hs =>
      match (get_user_by_email_isSome_iff db req.email).mp hs with
      | ⟨u, hu, hequ⟩ => (h u hu).1 hequ
    have hun : ¬((get_user_by_username db req.username).isSome = true) :=
      fun hs =>
        match (get_user_by_username_isSome_iff db req.username).mp hs with
        | ⟨u, hu, hequ⟩ => (h u hu).2 hequ
    unfold register
    rw [if_neg he, if_neg hun]

/-- C8 witness: against a one-user database, a duplicate email is rejected,
a duplicate username with fresh email is rejected, and a fresh registration
appends the new User and its UserProfile. -/
theorem registration_rejects_duplicates_witness :
    register (fun s => s)
      ⟨[⟨1, "a@x.com", "alice", "Alice", "h"⟩], []⟩
      ⟨"a@x.com", "bob", "password123", "Bob", 2000, [], [], none, none⟩ =
      .rejected "Email already registered"
    ∧ register (fun s => s)
      ⟨[⟨1, "a@x.com", "alice", "Alice", "h"⟩], []⟩
      ⟨"b@x.com", "alice", "password123", "Bob", 2000, [], [], none, none⟩ =
      .rejected "Username already taken"
    ∧ register (fun s => s)
      ⟨[⟨1, "a@x.com", "alice", "Alice", "h"⟩], []⟩
      ⟨"b@x.com", "bob", "password123", "Bob", 2000, [], [], none, none⟩ =
      .ok ⟨[⟨1, "a@x.com", "alice", "Alice", "h"⟩,
            ⟨2, "b@x.com", "bob", "Bob",
              hash_password (fun s => s) "password123"⟩],
           [⟨2, 2000, [], [], none, none, none, none⟩]⟩ 2 :=
  ⟨(registration_rejects_duplicates (fun s => s)
      ⟨[⟨1, "a@x.com", "alice", "Alice", "h"⟩], []⟩
      ⟨"a@x.com", "bob", "password123", "Bob", 2000, [], [], none, none⟩).1
      (by decide),
   (registration_rejects_duplicates (fun s => s)
      ⟨[⟨1, "a@x.com", "alice", "Alice", "h"⟩], []⟩
      ⟨"b@x.com", "alice", "password123", "Bob", 2000, [], [], none,
        none⟩).2.1 (by decide) (by decide),
   (registration_rejects_duplicates (fun s => s)
      ⟨[⟨1, "a@x.com", "alice", "Alice", "h"⟩], []⟩
      ⟨"b@x.com", "bob", "password123", "Bob", 2000, [], [], none,
        none⟩).2.2 (by decide)⟩

lemma search_found_cases (catalog : Catalog) (nm : String) (q : ℚ)
    (u : String) :
    (search_and_price_ingredient catalog nm q u).found = false ∨
      ∃ pr, (search_and_price_ingredient catalog nm q u).price = some pr := by
  unfold search_and_price_ingredient
  split
  · rename_i kp _heq
    by_cases ht : pyTruthyQ kp.price = true
    · rw [if_pos ht]
      right
      cases hp : kp.price with
      | none => rw [hp] at ht; simp [pyTruthyQ] at ht
      | some x => exact ⟨x, rfl⟩
    · rw [if_neg ht]
      left
      rfl
  · left
    rfl

lemma search_found_price (catalog : Catalog) (nm : String) (q : ℚ)
    (u : String) (h : (search_and_price_ingredient catalog nm q u).found =
      true) :
    ∃ pr, (search_and_price_ingredient catalog nm q u).price = some pr := by
  rcases search_found_cases catalog nm q u with hf | hp
  · rw [h] at hf; exact Bool.noConfusion hf
  · exact hp

lemma search_not_priced (catalog : Catalog) (nm : String) (q : ℚ)
    (u : String) (h : ¬IsPriced catalog nm) :
    (search_and_price_ingredient catalog nm q u).found = false := by
  unfold search_and_price_ingredient
  split
  · rename_i kp heq
    by_cases ht : pyTruthyQ kp.price = true
    · exact absurd ⟨kp, heq, ht⟩ h
    · rw [if_neg ht]
  · rfl

lemma search_priced_eq (catalog : Catalog) (nm : String) (q : ℚ) (u : String)
    (kp : CatalogProduct) (hc : catalog nm = some kp)
    (ht : pyTruthyQ kp.price = true) :
    search_and_price_ingredient catalog nm q u =
      { name := kp.name, quantity := q, unit := u, price := kp.price
        product_id := kp.product_id, upc := kp.upc, brand := kp.brand
        category := categorize_ingredient nm, source := "kroger_api"
        found := true } := by
  unfold search_and_price_ingredient
  split
  · rename_i kp2 heq
    rw [hc] at heq
    have hk : kp2 = kp := (Option.some.inj heq).symm
    subst hk
    rw [if_pos ht]
  · rename_i heq
    rw [hc] at heq
    exact Option.noConfusion heq

lemma groceryLoop_total_eq (catalog : Catalog) (ings : List PyIngredient) :
    ∀ items total found,
      groceryLoop catalog ings = some (items, total, found) →
      total = (items.filterMap (fun i => i.estimated_price)).sum := by
  induction ings with
  | nil =>
    intro items total found h
    simp only [groceryLoop, Option.some.injEq, Prod.mk.injEq] at h
    obtain ⟨h1, h2, _⟩ := h
    subst h1
    subst h2
    simp
  | cons ing rest ih =>
    intro items total found h
    simp only [groceryLoop] at h
    split at h
    · exact Option.noConfusion h
    · rename_i nqun nm q u nt _heq
      split at h
      · exact Option.noConfusion h
      · rename_i res items0 total0 found0 heq2
        have ihres := ih items0 total0 found0 heq2
        split at h
        · rename_i hcond
          have hfound : (search_and_price_ingredient catalog nm q u).found =
              true := by
            simp only [Bool.and_eq_true] at hcond
            exact hcond.1
          obtain ⟨pr, hpr⟩ := search_found_price catalog nm q u hfound
          simp only [Option.some.injEq, Prod.mk.injEq] at h
          obtain ⟨h1, h2, _⟩ := h
          subst h1
          subst h2
          rw [hpr]
          simp [List.filterMap_cons, hpr, ihres]
        · simp only [Option.some.injEq, Prod.mk.injEq] at h
          obtain ⟨h1, h2, _⟩ := h
          subst h1
          subst h2
          exact ihres

lemma groceryLoop_all_priced (catalog : Catalog) (ings : List PyIngredient)
    (h : ∀ i ∈ ings, ∃ nm q u nt,
      normalizeIngredient i = some (nm, q, u, nt) ∧ IsPriced catalog nm) :
    ∃ items total found,
      groceryLoop catalog ings = some (items, total, found) ∧
        items.length = ings.length := by
  induction ings with
  | nil => exact ⟨[], 0, 0, rfl, rfl⟩
  | cons ing rest ih =>
    obtain ⟨items0, total0, found0, hl, hlen⟩ := ih
      (fun i hi => h i (List.mem_cons_of_mem ing hi))
    obtain ⟨nm, q, u, nt, hn, kp, hc, ht⟩ :=
      h ing (List.mem_cons_self ing rest)
    have hs := search_priced_eq catalog nm q u kp hc ht
    have hcond : ((search_and_price_ingredient catalog nm q u).found
        && ((search_and_price_ingredient catalog nm q u).source ==
          "kroger_api")) = true := by
      rw [hs]
      rfl
    obtain ⟨x, hx⟩ : ∃ x, kp.price = some x := by
      cases hpx : kp.price with
      | none => rw [hpx] at ht; simp [pyTruthyQ] at ht
      | some x => exact ⟨x, rfl⟩
    refine ⟨⟨kp.name, q, u, nt, categorize_ingredient nm, kp.price,
        kp.product_id, kp.upc, kp.brand⟩ :: items0, x + total0, found0 + 1,
      ?_, ?_⟩
    · simp only [groceryLoop, hn, hl, hs, hcond, if_true, hx]
      rfl
    · simp [hlen]

lemma pyTruthyQ_false_of_not_true (o : Option ℚ)
    (h : ¬pyTruthyQ o = true) : pyTruthyQ o = false := by
  revert h
  cases pyTruthyQ o <;> simp

lemma fromRecipeLoop_total_eq (catalog : Catalog)
    (ings : List FRIngredient) :
    (fromRecipeLoop catalog ings).2.1 =
      ((fromRecipeLoop catalog ings).1.map (fun i => i.total_price)).sum := by
  induction ings with
  | nil => simp [fromRecipeLoop]
  | cons i rest ih =>
    simp only [fromRecipeLoop]
    by_cases hname : (i.name == "") = true
    · rw [if_pos hname]
      exact ih
    · rw [if_neg hname]
      split
      · split
        · simp [ih]
        · simp [ih]
      · simp [ih]

lemma fromRecipeLoop_line_price (catalog : Catalog)
    (ings : List FRIngredient) :
    ∀ it ∈ (fromRecipeLoop catalog ings).1,
      it.total_price = it.price_per_unit * it.quantity := by
  induction ings with
  | nil => simp [fromRecipeLoop]
  | cons i rest ih =>
    intro it hit
    simp only [fromRecipeLoop] at hit
    by_cases hname : (i.name == "") = true
    · rw [if_pos hname] at hit
      exact ih it hit
    · rw [if_neg hname] at hit
      split at hit
      · split at hit
        · rcases List.mem_cons.mp hit with hit | hit
          · subst hit; rfl
          · exact ih it hit
        · rcases List.mem_cons.mp hit with hit | hit
          · subst hit; rfl
          · exact ih it hit
      · rcases List.mem_cons.mp hit with hit | hit
        · subst hit; rfl
        · exact ih it hit

lemma groceryLoop_skip_unpriced (catalog : Catalog) (name : String) (q : ℚ)
    (u nt : String) (h : ¬IsPriced catalog name)
    (pre post : List PyIngredient) :
    groceryLoop catalog (pre ++ .structured name q u nt :: post) =
      groceryLoop catalog (pre ++ post) := by
  induction pre with
  | nil =>
    have hf : (search_and_price_ingredient catalog name q u).found = false :=
      search_not_priced catalog name q u h
    have hcond : ((search_and_price_ingredient catalog name q u).found
        && ((search_and_price_ingredient catalog name q u).source ==
          "kroger_api")) = false := by
      rw [hf]
      rfl
    simp only [List.nil_append, groceryLoop, normalizeIngredient]
    cases hl : groceryLoop catalog post with
    | none => simp [hl]
    | some res =>
      obtain ⟨i0, t0, f0⟩ := res
      simp [hl, hcond]
  | cons p pre' ih =>
    simp only [List.cons_append, groceryLoop, List.append_eq, ih]

/-- C2: an ingredient with no catalog match carrying a truthy price is
excluded from the primary builder's list entirely — it contributes no line
item, nothing to the total, and nothing to the found count — while the
from-recipe route includes it priced at the flat $2.50 estimate per unit of
quantity, contributing `2.50 * quantity` to that route's total. -/
theorem unpriced_ingredient_policy (catalog : Catalog)
    (pre post : List PyIngredient) (store : String)
    (name : String) (q : ℚ) (u nt : String)
    (frRest : List FRIngredient)
    (hnp : ¬IsPriced catalog name) (hne : (name == "") = false) :
    ((create_grocery_list catalog
        (pre ++ .structured name q u nt :: post) store).map
        (fun r => (r.items, r.total_estimated_cost, r.kroger_items_found)) =
      (create_grocery_list catalog (pre ++ post) store).map
        (fun r => (r.items, r.total_estimated_cost, r.kroger_items_found)))
    ∧ (create_grocery_list_from_recipe catalog
        (⟨name, q, u⟩ :: frRest)).items =
        ⟨name, q, u, 5/2, 5/2 * q, "estimated", false⟩ ::
          (create_grocery_list_from_recipe catalog frRest).items
    ∧ (create_grocery_list_from_recipe catalog
        (⟨name, q, u⟩ :: frRest)).total_estimated_cost =
        5/2 * q +
          (create_grocery_list_from_recipe catalog frRest).total_estimated_cost
    := by
  refine ⟨?_, ?_, ?_⟩
  · unfold create_grocery_list
    rw [groceryLoop_skip_unpriced catalog name q u nt hnp pre post]
    cases groceryLoop catalog (pre ++ post) with
    | none => rfl
    | some res => rfl
  · unfold create_grocery_list_from_recipe
    simp only [fromRecipeLoop, hne]
    cases hc : catalog name with
    | none => simp
    | some kp =>
      have ht : pyTruthyQ kp.price = false :=
        pyTruthyQ_false_of_not_true kp.price (fun htr => hnp ⟨kp, hc, htr⟩)
      simp [ht]
  · unfold create_grocery_list_from_recipe
    simp only [fromRecipeLoop, hne]
    cases hc : catalog name with
    | none => simp
    | some kp =>
      have ht : pyTruthyQ kp.price = false :=
        pyTruthyQ_false_of_not_true kp.price (fun htr => hnp ⟨kp, hc, htr⟩)
      simp [ht]

/-- C2 witness: against an empty catalog, the primary builder drops the
unmatched "tofu" line while the from-recipe route includes it at
$2.50 × 2 = $5.00. -/
theorem unpriced_ingredient_policy_witness :
    ((create_grocery_list c2Catalog [.structured "tofu" 2 "blocks" ""]
        "Kroger").map
        (fun r => (r.items, r.total_estimated_cost, r.kroger_items_found)) =
      (create_grocery_list c2Catalog [] "Kroger").map
        (fun r => (r.items, r.total_estimated_cost, r.kroger_items_found)))
    ∧ (create_grocery_list_from_recipe c2Catalog [⟨"tofu", 2, "blocks"⟩]).items
        = [⟨"tofu", 2, "blocks", 5/2, 5/2 * 2, "estimated", false⟩] := by
  have h := unpriced_ingredient_policy c2Catalog [] [] "Kroger" "tofu" 2
    "blocks" "" [] (fun ⟨kp, hkp, _⟩ => Option.noConfusion hkp) (by decide)
  exact ⟨h.1, h.2.1⟩

/-- C1 (amended): when every ingredient of a recipe is successfully priced,
the primary grocery-list builder returns one line item per ingredient and a
`total_estimated_cost` equal to the sum of the line items' flat catalog
prices — quantity is NOT multiplied in — rounded to 2 decimals; the
from-recipe route instead prices each line at unit price × quantity (flat
$2.50 per unit when unmatched) and returns their unrounded sum. -/
theorem grocery_total_formula (catalog : Catalog) (ings : List PyIngredient)
    (frIngs : List FRIngredient) (store : String)
    (hp : ∀ i ∈ ings, ∃ nm q u nt,
      normalizeIngredient i = some (nm, q, u, nt) ∧ IsPriced catalog nm) :
    (∃ r, create_grocery_list catalog ings store = some r ∧
      r.items.length = ings.length ∧
      r.total_estimated_cost =
        pyRound ((r.items.filterMap (fun i => i.estimated_price)).sum) 2)
    ∧ (create_grocery_list_from_recipe catalog frIngs).total_estimated_cost =
        ((create_grocery_list_from_recipe catalog frIngs).items.map
          (fun i => i.total_price)).sum
    ∧ (∀ it ∈ (create_grocery_list_from_recipe catalog frIngs).items,
        it.total_price = it.price_per_unit * it.quantity) := by
  refine ⟨?_, fromRecipeLoop_total_eq catalog frIngs,
    fromRecipeLoop_line_price catalog frIngs⟩
  obtain ⟨items, total, found, hl, hlen⟩ :=
    groceryLoop_all_priced catalog ings hp
  have htot := groceryLoop_total_eq catalog ings items total found hl
  refine ⟨⟨store, items, pyRound total 2, found, ings.length⟩, ?_, hlen, ?_⟩
  · unfold create_grocery_list
    rw [hl]
    rfl
  · show pyRound total 2 = _
    rw [htot]

/-- C1 counterexample: with "paneer" priced at $3.00 and quantity 2, the
primary builder returns total 3 (flat price, quantity ignored) whereas the
claim's unit-price-times-quantity formula gives 6; and the from-recipe route
returns 6 (price × quantity) whereas the claim's flat per-item price for
that route gives 3. -/
theorem grocery_total_formula_counterexample :
    (create_grocery_list c1Catalog [.structured "paneer" 2 "g" ""]
        "Kroger").map (fun r => r.total_estimated_cost) = some 3
    ∧ pyRound ((3 : ℚ) * 2) 2 = 6
    ∧ (3 : ℚ) ≠ 6
    ∧ (create_grocery_list_from_recipe c1Catalog
        [⟨"paneer", 2, "g"⟩]).total_estimated_cost = 6
    ∧ ((create_grocery_list_from_recipe c1Catalog
        [⟨"paneer", 2, "g"⟩]).items.map (fun i => i.price_per_unit)) =
        [3] := by
  have h1 : (create_grocery_list c1Catalog [.structured "paneer" 2 "g" ""]
      "Kroger").map (fun r => r.total_estimated_cost) =
      some (pyRound (3 + 0) 2) := rfl
  have h4 : (create_grocery_list_from_recipe c1Catalog
      [⟨"paneer", 2, "g"⟩]).total_estimated_cost = 3 * 2 + 0 := rfl
  refine ⟨?_, ?_, by norm_num, ?_, rfl⟩
  · rw [h1]
    norm_num [pyRound, roundHalfEven]
  · norm_num [pyRound, roundHalfEven]
  · rw [h4]
    norm_num

/-- C1 witness: for the one-ingredient recipe priced by `c1Catalog`, the
primary builder yields one line item whose rounded flat-price sum is the
total, and the from-recipe route's total is the sum of its line prices. -/
theorem grocery_total_formula_witness :
    (∃ r, create_grocery_list c1Catalog [.structured "paneer" 2 "g" ""]
        "Kroger" = some r ∧
      r.items.length = [PyIngredient.structured "paneer" 2 "g" ""].length ∧
      r.total_estimated_cost =
        pyRound ((r.items.filterMap (fun i => i.estimated_price)).sum) 2)
    ∧ (create_grocery_list_from_recipe c1Catalog
        [⟨"paneer", 2, "g"⟩]).total_estimated_cost =
        ((create_grocery_list_from_recipe c1Catalog
          [⟨"paneer", 2, "g"⟩]).items.map (fun i => i.total_price)).sum := by
  have h := grocery_total_formula c1Catalog
    [.structured "paneer" 2 "g" ""] [⟨"paneer", 2, "g"⟩] "Kroger"
    (by
      intro i hi
      have hi2 : i = PyIngredient.structured "paneer" 2 "g" "" := by
        simpa using hi
      subst hi2
      exact ⟨"paneer", 2, "g", "", rfl,
        ⟨"Paneer 14oz", some 3, some "p1", none, some "BrandX"⟩, rfl,
        by decide⟩)
  exact ⟨h.1, h.2.1⟩
